import Mathlib

/-!
Verification development for the vLLM wrapper client
(`src/week04/p12/custom_vllm_wrapper.py`) and its preset configuration
table (`src/week04/p12/vllm_config.py`).

Python values that can appear in request payloads and JSON documents are
embedded as explicit inductive types; Python exceptions are embedded as an
error inductive carried in `Except`.  Machine floats in the source are all
used as exact decimal constants, so they are embedded as rationals.
-/

/-- A Python value that can appear in a request-parameter payload.
Floats are embedded as `ℚ` (all float constants in the source are exact
decimals), ints as `ℤ`. -/
inductive PVal where
  | str (s : String)
  | num (q : ℚ)
  | int (n : ℤ)
  | bool (b : Bool)
  | strList (l : List String)
  | intList (l : List ℤ)
deriving DecidableEq

/-- A Python exception, as surfaced by the wrapper.  The constructor is the
exception class; the `String` argument is the message.  `validationError`
models `pydantic.ValidationError` and carries the names of the invalid
fields, in field-declaration order. -/
inductive PyErr where
  | exception (msg : String)
  | typeError (msg : String)
  | keyError (key : String)
  | indexError (msg : String)
  | attributeError (msg : String)
  | valueError (msg : String)
  | validationError (fields : List String)
deriving DecidableEq

/-- The class (type) of a Python exception, forgetting the message: this is
what `except SomeClass:` can branch on. -/
inductive PyClass where
  | cException
  | cTypeError
  | cKeyError
  | cIndexError
  | cAttributeError
  | cValueError
  | cValidationError
deriving DecidableEq

def PyErr.pyClass : PyErr → PyClass
  | .exception _ => .cException
  | .typeError _ => .cTypeError
  | .keyError _ => .cKeyError
  | .indexError _ => .cIndexError
  | .attributeError _ => .cAttributeError
  | .valueError _ => .cValueError
  | .validationError _ => .cValidationError

/-- A JSON document, as produced by `json.loads`.  `Json.null` is also the
embedding of the Python value `None`; Python ints and floats are merged
into `num`. -/
inductive Json where
  | null
  | bool (b : Bool)
  | num (q : ℚ)
  | str (s : String)
  | arr (elems : List Json)
  | obj (entries : List (String × Json))

/-- Python name of the type of a JSON value (used in error messages,
approximating CPython wording). -/
def typeName : Json → String
  | .null => "NoneType"
  | .bool _ => "bool"
  | .num _ => "int"
  | .str _ => "str"
  | .arr _ => "list"
  | .obj _ => "dict"

/-- Python truthiness of a JSON value. -/
def truthy : Json → Bool
  | .null => false
  | .bool b => b
  | .num q => decide (q ≠ 0)
  | .str s => decide (s ≠ "")
  | .arr xs => !xs.isEmpty
  | .obj kvs => !kvs.isEmpty

/-! ### A model of `json.loads`

`json.loads` is a library function; it is modelled by a recursive-descent
parser over the character list of the input, complete for JSON documents
made of objects, arrays, strings without `\u` escapes, numbers, booleans
and null.  Recursion is bounded by an explicit fuel argument so every
definition is structural (and hence kernel-reducible). -/

def isPyWs (c : Char) : Bool :=
  c = ' ' || c = '\t' || c = '\n' || c = '\r' || c = '\x0b' || c = '\x0c'

def skipWs : List Char → List Char
  | [] => []
  | c :: cs => if isPyWs c then skipWs cs else c :: cs

/-- One-character JSON string escapes (`\uXXXX` is not modelled). -/
def escChar : Char → Option Char
  | '\"' => some '\"'
  | '\\' => some '\\'
  | '/' => some '/'
  | 'n' => some '\n'
  | 't' => some '\t'
  | 'r' => some '\r'
  | 'b' => some '\x08'
  | 'f' => some '\x0c'
  | _ => none

/-- Parse the body of a JSON string after the opening quote; returns the
decoded string and the remaining input. -/
def parseStrAux (acc : List Char) : List Char → Option (String × List Char)
  | [] => none
  | '\"' :: cs => some (String.mk acc.reverse, cs)
  | '\\' :: e :: cs =>
    match escChar e with
    | some ec => parseStrAux (ec :: acc) cs
    | none => none
  | '\\' :: [] => none
  | c :: cs => parseStrAux (c :: acc) cs

def digitsToNat (ds : List Char) : ℕ :=
  ds.foldl (fun n c => 10 * n + (c.toNat - 48)) 0

/-- Parse a JSON number token.  Accepts an optional sign, an integer part,
an optional fractional part and an optional exponent. -/
def parseNum (cs : List Char) : Option (Json × List Char) :=
  let (neg, cs1) :=
    match cs with
    | '-' :: r => (true, r)
    | _ => (false, cs)
  let ds := cs1.takeWhile (fun c => Char.isDigit c)
  let cs2 := cs1.dropWhile (fun c => Char.isDigit c)
  if ds.isEmpty then none
  else
    let ipart : ℚ := (digitsToNat ds : ℚ)
    let (fval, cs3) :=
      match cs2 with
      | '.' :: r =>
        let fds := r.takeWhile (fun c => Char.isDigit c)
        (((digitsToNat fds : ℚ) / (10 : ℚ) ^ fds.length, r.dropWhile (fun c => Char.isDigit c)))
      | _ => ((0 : ℚ), cs2)
    let (epart, cs4) :=
      match cs3 with
      | 'e' :: '-' :: r =>
        let eds := r.takeWhile (fun c => Char.isDigit c)
        (((10 : ℚ) ^ digitsToNat eds)⁻¹, r.dropWhile (fun c => Char.isDigit c))
      | 'e' :: '+' :: r =>
        let eds := r.takeWhile (fun c => Char.isDigit c)
        ((10 : ℚ) ^ digitsToNat eds, r.dropWhile (fun c => Char.isDigit c))
      | 'e' :: r =>
        let eds := r.takeWhile (fun c => Char.isDigit c)
        ((10 : ℚ) ^ digitsToNat eds, r.dropWhile (fun c => Char.isDigit c))
      | 'E' :: '-' :: r =>
        let eds := r.takeWhile (fun c => Char.isDigit c)
        (((10 : ℚ) ^ digitsToNat eds)⁻¹, r.dropWhile (fun c => Char.isDigit c))
      | 'E' :: '+' :: r =>
        let eds := r.takeWhile (fun c => Char.isDigit c)
        ((10 : ℚ) ^ digitsToNat eds, r.dropWhile (fun c => Char.isDigit c))
      | 'E' :: r =>
        let eds := r.takeWhile (fun c => Char.isDigit c)
        ((10 : ℚ) ^ digitsToNat eds, r.dropWhile (fun c => Char.isDigit c))
      | _ => ((1 : ℚ), cs3)
    let v : ℚ := (ipart + fval) * epart
    some (Json.num (if neg then -v else v), cs4)

/-- Insert into a Python dict modelled as an association list: replace in
place if the key is present (as `dict.__setitem__` does during
`json.loads`), else append. -/
def dictInsert (d : List (String × Json)) (k : String) (v : Json) :
    List (String × Json) :=
  if d.any (fun p => p.1 = k) then d.map (fun p => if p.1 = k then (p.1, v) else p)
  else d ++ [(k, v)]

/-- Pending parse task: a value, the tail of an array, or the tail of an
object. -/
inductive PTask where
  | val
  | arrTail (acc : List Json)
  | objTail (acc : List (String × Json))

def parseCore : ℕ → PTask → List Char → Option (Json × List Char)
  | 0, _, _ => none
  | Nat.succ k, PTask.val, cs =>
    match skipWs cs with
    | '\x7b' :: rest =>
      (match skipWs rest with
       | '\x7d' :: rest2 => some (Json.obj [], rest2)
       | _ => parseCore k (PTask.objTail []) rest)
    | '[' :: rest =>
      (match skipWs rest with
       | ']' :: rest2 => some (Json.arr [], rest2)
       | _ => parseCore k (PTask.arrTail []) rest)
    | '\"' :: rest => (parseStrAux [] rest).map (fun p => (Json.str p.1, p.2))
    | 't' :: 'r' :: 'u' :: 'e' :: rest => some (Json.bool true, rest)
    | 'f' :: 'a' :: 'l' :: 's' :: 'e' :: rest => some (Json.bool false, rest)
    | 'n' :: 'u' :: 'l' :: 'l' :: rest => some (Json.null, rest)
    | rest => parseNum rest
  | Nat.succ k, PTask.arrTail acc, cs =>
    match parseCore k PTask.val cs with
    | none => none
    | some (v, rest) =>
      match skipWs rest with
      | ',' :: rest2 => parseCore k (PTask.arrTail (v :: acc)) rest2
      | ']' :: rest2 => some (Json.arr (v :: acc).reverse, rest2)
      | _ => none
  | Nat.succ k, PTask.objTail acc, cs =>
    match skipWs cs with
    | '\"' :: rest =>
      (match parseStrAux [] rest with
       | none => none
       | some (key, rest2) =>
         match skipWs rest2 with
         | ':' :: rest3 =>
           (match parseCore k PTask.val rest3 with
            | none => none
            | some (v, rest4) =>
              match skipWs rest4 with
              | ',' :: rest5 => parseCore k (PTask.objTail (dictInsert acc key v)) rest5
              | '\x7d' :: rest5 => some (Json.obj (dictInsert acc key v), rest5)
              | _ => none)
         | _ => none)
    | _ => none

/-- Model of `json.loads` on the character list of the input: parse one
JSON value and require only whitespace to remain.  `none` models
`json.JSONDecodeError`. -/
def json_loads (cs : List Char) : Option Json :=
  match parseCore (2 * cs.length + 2) PTask.val cs with
  | some (j, rest) => if skipWs rest = [] then some j else none
  | none => none

example : json_loads (("data").data) = none := rfl
example : json_loads (("not-json").data) = none := rfl
example : json_loads (("\x7b\"choices\":[\x7b\"text\":\"A\"\x7d]\x7d").data) =
    some (Json.obj [("choices", Json.arr [Json.obj [("text", Json.str ("A"))]])]) := rfl
example : json_loads ((" [true, false, null, \"a b\"] ").data) =
    some (Json.arr [Json.bool true, Json.bool false, Json.null, Json.str ("a b")]) := rfl

/-! ### Python operational helpers

These model the concrete Python operations the wrapper performs on decoded
JSON values: `k in x`, `x[k]`, `x[0]`, `x.get(k, default)`.  Each returns
`Except PyErr _`; an `error` is an exception raised by the operation. -/

/-- Substring test on character lists (`k in s` for Python strings). -/
def substrCheck (pat : List Char) (s : List Char) : Bool :=
  if pat.isPrefixOf s then true
  else
    match s with
    | [] => false
    | _ :: t => substrCheck pat t

/-- Python membership `k in x` for a string key `k`: key test on dicts,
equality test on list elements, substring test on strings; `TypeError` on
non-container values. -/
def pyIn (k : String) : Json → Except PyErr Bool
  | Json.obj kvs => .ok (kvs.any (fun p => p.1 = k))
  | Json.arr xs =>
    .ok (xs.any (fun x => match x with | Json.str s => s = k | _ => false))
  | Json.str s => .ok (substrCheck k.data s.data)
  | j => .error (.typeError ("argument of type " ++ typeName j ++ " is not iterable"))

/-- Python subscript `x[k]` for a string key `k`. -/
def pySubscrStr (j : Json) (k : String) : Except PyErr Json :=
  match j with
  | Json.obj kvs =>
    match List.lookup k kvs with
    | some v => .ok v
    | none => .error (.keyError k)
  | Json.arr _ => .error (.typeError ("list indices must be integers"))
  | Json.str _ => .error (.typeError ("string indices must be integers"))
  | j => .error (.typeError (typeName j ++ " is not subscriptable"))

/-- Python subscript `x[0]`. -/
def pySubscr0 : Json → Except PyErr Json
  | Json.arr (x :: _) => .ok x
  | Json.arr [] => .error (.indexError ("list index out of range"))
  | Json.str s =>
    match s.data with
    | c :: _ => .ok (Json.str (String.mk [c]))
    | [] => .error (.indexError ("string index out of range"))
  | Json.obj _ => .error (.keyError ("0"))
  | j => .error (.typeError (typeName j ++ " is not subscriptable"))

/-- Python `x.get(k, dflt)`: only dicts have `.get`. -/
def pyGet (j : Json) (k : String) (dflt : Json) : Except PyErr Json :=
  match j with
  | Json.obj kvs => .ok ((List.lookup k kvs).getD dflt)
  | j => .error (.attributeError (typeName j ++ " object has no attribute get"))

/-! ### The streaming decoder (`_make_stream_request`, lines 217-231)

The transport is abstracted as the list of already-UTF-8-decoded lines of
the response body, in order; the decoder is the loop body
```text
for line in response.iter_lines():
    if line: ...
```
of `_make_stream_request`.  Its result is `ok` with the list of yielded
chunks when iteration finishes (normally or via `[DONE]`), and `error e`
when the loop body raises an exception `e` that escapes the generator. -/

def dataMarker : List Char := ("data: ").data

def doneToken : List Char := ("[DONE]").data

/-- Python `str.strip()` with no arguments: remove leading and trailing
whitespace. -/
def pyStrip (cs : List Char) : List Char :=
  ((cs.dropWhile isPyWs).reverse.dropWhile isPyWs).reverse

/-- Processing of one successfully `json.loads`-parsed frame:
```text
if 'choices' in chunk_data and chunk_data['choices']:
    text = chunk_data['choices'][0].get('text', '')
    if text:
        yield text
```
`ok (some t)` means `t` is yielded, `ok none` means the frame yields
nothing, `error e` means the statement raises `e`. -/
def frameStep (chunk : Json) : Except PyErr (Option Json) :=
  match pyIn ("choices") chunk with
  | .error e => .error e
  | .ok false => .ok none
  | .ok true =>
    match pySubscrStr chunk ("choices") with
    | .error e => .error e
    | .ok c =>
      if truthy c then
        match pySubscr0 c with
        | .error e => .error e
        | .ok first =>
          match pyGet first ("text") (Json.str ("")) with
          | .error e => .error e
          | .ok t => if truthy t then .ok (some t) else .ok none
      else .ok none

/-- The line loop of `_make_stream_request`: blank lines are skipped, lines
without the `data: ` marker are skipped, a payload stripping to `[DONE]`
ends iteration, payloads that fail `json.loads` are skipped (the
`except json.JSONDecodeError: continue`), and parsed frames go through
`frameStep`.  Exceptions other than `JSONDecodeError` escape. -/
def decodeLines : List (List Char) → Except PyErr (List Json)
  | [] => .ok []
  | line :: rest =>
    if line = [] then decodeLines rest
    else if dataMarker.isPrefixOf line then
      let d := line.drop 6
      if pyStrip d = doneToken then .ok []
      else
        match json_loads d with
        | none => decodeLines rest
        | some chunk =>
          match frameStep chunk with
          | .error e => .error e
          | .ok none => decodeLines rest
          | .ok (some t) => (decodeLines rest).map (fun ys => t :: ys)
    else decodeLines rest

example :
    decodeLines [("data: \x7b\"choices\":[\x7b\"text\":\"A\"\x7d]\x7d").data,
      ("data: \x7b\"choices\":[\x7b\"text\":\"B\"\x7d]\x7d").data,
      ("data: [DONE]").data] = .ok [Json.str ("A"), Json.str ("B")] := rfl

example :
    decodeLines [("data: \x7b\"choices\":[\x7b\"text\":\"A\"\x7d]\x7d").data,
      ("data: not-json").data,
      ("data: \x7b\"choices\":[\x7b\"text\":\"B\"\x7d]\x7d").data,
      ("data: [DONE]").data] = .ok [Json.str ("A"), Json.str ("B")] := rfl

example :
    decodeLines [("data: 5").data] =
      .error (.typeError ("argument of type int is not iterable")) := rfl

/-! ### The wrapper class (`CustomVLLMWrapper`, lines 13-76)

The pydantic field declarations become a structure whose defaults are the
`Field(default=...)` values; `Field(ge=..., le=...)` constraints and the
two custom validators become `validateFields`, which returns the names of
the fields whose value violates its declared range, in field-declaration
order.  Construction (`CustomVLLMWrapper.construct`) fails with one
`ValidationError` listing all invalid fields, as pydantic does. -/

structure CustomVLLMWrapper where
  model_name : String
  base_url : String := "http://localhost:8000"
  api_key : Option String := none
  temperature : ℚ := 0.7
  top_p : ℚ := 0.9
  top_k : ℤ := 50
  max_tokens : ℤ := 512
  repetition_penalty : ℚ := 1.1
  frequency_penalty : ℚ := 0
  presence_penalty : ℚ := 0
  min_p : ℚ := 0
  stop : Option (List String) := none
  stop_token_ids : Option (List ℤ) := none
  use_beam_search : Bool := false
  best_of : ℤ := 1
  n : ℤ := 1
  length_penalty : ℚ := 1
  early_stopping : Bool := false
  seed : Option ℤ := none
  logprobs : Option ℤ := none
  echo : Bool := false
  skip_special_tokens : Bool := true
  spaces_between_special_tokens : Bool := true
  timeout : ℤ := 60
  max_retries : ℤ := 3

/-- The names of the fields of `w` whose values violate their declared
`ge`/`le` bounds (lines 25-51), in field-declaration order.  The two
custom validators (lines 62-72) duplicate the `temperature` and `top_p`
bounds and add no further constraint. -/
def validateFields (w : CustomVLLMWrapper) : List String :=
  (if w.temperature < 0 ∨ 2 < w.temperature then [("temperature" : String)] else []) ++
  (if w.top_p < 0 ∨ 1 < w.top_p then [("top_p" : String)] else []) ++
  (if w.top_k < 1 ∨ 100 < w.top_k then [("top_k" : String)] else []) ++
  (if w.max_tokens < 1 ∨ 4096 < w.max_tokens then [("max_tokens" : String)] else []) ++
  (if w.repetition_penalty < 0.1 ∨ 2 < w.repetition_penalty then
    [("repetition_penalty" : String)] else []) ++
  (if w.frequency_penalty < -2 ∨ 2 < w.frequency_penalty then
    [("frequency_penalty" : String)] else []) ++
  (if w.presence_penalty < -2 ∨ 2 < w.presence_penalty then
    [("presence_penalty" : String)] else []) ++
  (if w.min_p < 0 ∨ 1 < w.min_p then [("min_p" : String)] else []) ++
  (if w.best_of < 1 ∨ 20 < w.best_of then [("best_of" : String)] else []) ++
  (if w.n < 1 ∨ 10 < w.n then [("n" : String)] else []) ++
  (if w.length_penalty < 0.1 ∨ 2 < w.length_penalty then
    [("length_penalty" : String)] else []) ++
  (match w.logprobs with
   | none => []
   | some v => if v < 0 ∨ 20 < v then [("logprobs" : String)] else [])

/-- Pydantic construction: succeed iff no field is out of range, else fail
at once with a single `ValidationError` listing every invalid field. -/
def CustomVLLMWrapper.construct (w : CustomVLLMWrapper) :
    Except PyErr CustomVLLMWrapper :=
  if validateFields w = [] then .ok w
  else .error (.validationError (validateFields w))

/-- Per-call keyword overrides (`**kwargs` of `_call`/`_build_request_params`).
A field is `none` when the caller did not pass that keyword.  For `seed` and
`logprobs` (whose instance defaults are `Optional`), `some none` models
passing `None` explicitly.  `stop_token_ids` can be passed but is read by
no `kwargs.get` call in the source. -/
structure CallKwargs where
  temperature : Option ℚ := none
  top_p : Option ℚ := none
  top_k : Option ℤ := none
  max_tokens : Option ℤ := none
  repetition_penalty : Option ℚ := none
  frequency_penalty : Option ℚ := none
  presence_penalty : Option ℚ := none
  min_p : Option ℚ := none
  stop_token_ids : Option (List ℤ) := none
  use_beam_search : Option Bool := none
  best_of : Option ℤ := none
  n : Option ℤ := none
  length_penalty : Option ℚ := none
  early_stopping : Option Bool := none
  seed : Option (Option ℤ) := none
  logprobs : Option (Option ℤ) := none
  echo : Option Bool := none
  skip_special_tokens : Option Bool := none
  spaces_between_special_tokens : Option Bool := none

/-- Model of `final_stop = stop or self.stop` (line 87): Python `or` keeps the
caller's stop list only when it is truthy, i.e. a non-empty list. -/
def finalStop (stopOv : Option (List String)) (inst : Option (List String)) :
    Option (List String) :=
  match stopOv with
  | some (s :: rest) => some (s :: rest)
  | _ => inst

/-- Model of `_build_request_params` (lines 128-173): the payload dict in its
construction order, with every `None`-valued entry removed by the final
dict comprehension (line 173). -/
def _build_request_params (cfg : CustomVLLMWrapper) (prompt : String)
    (stop : Option (List String)) (stream : Bool) (kw : CallKwargs) :
    List (String × PVal) :=
  let params : List (String × Option PVal) := [
    ("model", some (.str cfg.model_name)),
    ("prompt", some (.str prompt)),
    ("stream", some (.bool stream)),
    ("temperature", some (.num (kw.temperature.getD cfg.temperature))),
    ("top_p", some (.num (kw.top_p.getD cfg.top_p))),
    ("top_k", some (.int (kw.top_k.getD cfg.top_k))),
    ("max_tokens", some (.int (kw.max_tokens.getD cfg.max_tokens))),
    ("repetition_penalty", some (.num (kw.repetition_penalty.getD cfg.repetition_penalty))),
    ("frequency_penalty", some (.num (kw.frequency_penalty.getD cfg.frequency_penalty))),
    ("presence_penalty", some (.num (kw.presence_penalty.getD cfg.presence_penalty))),
    ("min_p", some (.num (kw.min_p.getD cfg.min_p))),
    ("stop", stop.map .strList),
    ("stop_token_ids", cfg.stop_token_ids.map .intList),
    ("use_beam_search", some (.bool (kw.use_beam_search.getD cfg.use_beam_search))),
    ("best_of", some (.int (kw.best_of.getD cfg.best_of))),
    ("n", some (.int (kw.n.getD cfg.n))),
    ("length_penalty", some (.num (kw.length_penalty.getD cfg.length_penalty))),
    ("early_stopping", some (.bool (kw.early_stopping.getD cfg.early_stopping))),
    ("seed", (kw.seed.getD cfg.seed).map .int),
    ("logprobs", (kw.logprobs.getD cfg.logprobs).map .int),
    ("echo", some (.bool (kw.echo.getD cfg.echo))),
    ("skip_special_tokens", some (.bool (kw.skip_special_tokens.getD cfg.skip_special_tokens))),
    ("spaces_between_special_tokens",
      some (.bool (kw.spaces_between_special_tokens.getD cfg.spaces_between_special_tokens)))]
  params.filterMap (fun p => p.2.map (fun v => (p.1, v)))

/-! ### The blocking request (`_make_request`, lines 175-197)

The network is abstracted as a transport oracle mapping the attempt index
(0-based) to either a parsed 2xx JSON body (`ok`, covering
`requests.post` + `raise_for_status` + `.json()`) or the string of a
raised `requests.exceptions.RequestException` (`error`).  The trace
records how many attempts were made and the `time.sleep` durations, in
order. -/

structure ReqOut where
  result : Except PyErr Json
  attempts : ℕ
  sleeps : List ℕ

/-- The body of `for attempt in range(self.max_retries)`: `fuel` is the
number of loop iterations left, `a` the current attempt index.  When the
loop runs out without entering an iteration the function falls through and
implicitly returns Python `None`, embedded as `Json.null`. -/
def makeRequestLoop (t : ℕ → Except String Json) : ℕ → ℕ → ReqOut
  | 0, _ => ⟨.ok Json.null, 0, []⟩
  | Nat.succ k, a =>
    match t a with
    | .ok j => ⟨.ok j, 1, []⟩
    | .error e =>
      if k = 0 then ⟨.error (.exception ("vLLM API 请求失败: " ++ e)), 1, []⟩
      else
        let r := makeRequestLoop t k (a + 1)
        ⟨r.result, r.attempts + 1, 2 ^ a :: r.sleeps⟩

/-- Model of `_make_request`: run up to `max_retries` attempts, sleeping
`2 ** attempt` between attempts and re-raising the final failure wrapped
in a generic `Exception`. -/
def make_request (max_retries : ℤ) (t : ℕ → Except String Json) : ReqOut :=
  makeRequestLoop t max_retries.toNat 0

/-- Model of the clause
`except (KeyError, IndexError) as e: raise Exception(f"解析响应失败: ...")`
(lines 243-244): only those two classes are converted; everything else
propagates unchanged. -/
def parseCatch (e : PyErr) : Except PyErr Json :=
  match e with
  | .keyError m => .error (.exception ("解析响应失败: " ++ m))
  | .indexError m => .error (.exception ("解析响应失败: " ++ m))
  | e => .error e

/-- Model of `_parse_response` (lines 236-244): return
`response['choices'][0]['text']` when `choices` is present and truthy,
else raise the missing-`choices` `Exception` (which, not being a
`KeyError`/`IndexError`, is not converted by the `except` clause). -/
def parse_response (resp : Json) : Except PyErr Json :=
  match pyIn ("choices") resp with
  | .error e => .error e
  | .ok b =>
    if b then
      match pySubscrStr resp ("choices") with
      | .error e => parseCatch e
      | .ok c =>
        if truthy c then
          match pySubscr0 c with
          | .error e => parseCatch e
          | .ok first =>
            match pySubscrStr first ("text") with
            | .error e => parseCatch e
            | .ok t => .ok t
        else .error (.exception ("响应格式错误：缺少 choices 字段"))
    else .error (.exception ("响应格式错误：缺少 choices 字段"))

/-- Result of one blocking call: the returned text (or raised exception),
the request trace, and the payload that was built for the request. -/
structure CallResult where
  result : Except PyErr Json
  trace : ReqOut
  payload : List (String × PVal)

/-- Model of `_call` (lines 78-96): merge the stop lists, build the payload, run the
retried request, and parse the response. -/
def _call (cfg : CustomVLLMWrapper) (prompt : String)
    (stopOv : Option (List String)) (kw : CallKwargs)
    (t : ℕ → Except String Json) : CallResult :=
  let fs := finalStop stopOv cfg.stop
  let params := _build_request_params cfg prompt fs false kw
  let r := make_request cfg.max_retries t
  match r.result with
  | .error e => ⟨.error e, r, params⟩
  | .ok j => ⟨parse_response j, r, params⟩

/-! ### The preset configuration table (`vllm_config.py`)

`PRESET_CONFIGS` (lines 17-95) maps preset names to `VLLMConfig`
dataclasses whose `params` dicts are mutable Python objects.  To make
aliasing observable, the params dicts live in a small heap
(`PresetState.cells`, one cell per preset, in table order);
`get_preset_config` (lines 191-198) models
`PRESET_CONFIGS[preset_name].params.copy()`: a fresh cell is allocated
holding a copy of the preset's dict and its address is returned, the state
being returned unchanged on the unknown-name `ValueError`. -/

structure VLLMConfig where
  name : String
  description : String
  params : List (String × PVal)

def PRESET_CONFIGS : List (String × VLLMConfig) := [
  ("conservative", ⟨"保守型", "低随机性，适合需要准确性的任务",
    [("temperature", .num 0.1), ("top_p", .num 0.8), ("top_k", .int 10),
     ("repetition_penalty", .num 1.1), ("max_tokens", .int 512)]⟩),
  ("balanced", ⟨"平衡型", "平衡创意和准确性，适合大多数场景",
    [("temperature", .num 0.7), ("top_p", .num 0.9), ("top_k", .int 50),
     ("repetition_penalty", .num 1.1), ("frequency_penalty", .num 0.1),
     ("max_tokens", .int 1024)]⟩),
  ("creative", ⟨"创意型", "高随机性，适合创意写作和头脑风暴",
    [("temperature", .num 1.2), ("top_p", .num 0.95), ("top_k", .int 100),
     ("repetition_penalty", .num 1.05), ("presence_penalty", .num 0.2),
     ("max_tokens", .int 2048)]⟩),
  ("precise", ⟨"精确型", "极低随机性，适合代码生成和技术文档",
    [("temperature", .num 0.01), ("top_p", .num 0.7), ("top_k", .int 5),
     ("repetition_penalty", .num 1.2), ("frequency_penalty", .num 0.3),
     ("max_tokens", .int 1024)]⟩),
  ("diverse", ⟨"多样型", "强调内容多样性，减少重复",
    [("temperature", .num 0.8), ("top_p", .num 0.9), ("top_k", .int 80),
     ("repetition_penalty", .num 1.3), ("frequency_penalty", .num 0.5),
     ("presence_penalty", .num 0.4), ("max_tokens", .int 1536)]⟩),
  ("beam_search", ⟨"束搜索型", "使用束搜索，适合需要高质量输出的场景",
    [("temperature", .num 0.6), ("use_beam_search", .bool true),
     ("best_of", .int 3), ("length_penalty", .num 1.2),
     ("early_stopping", .bool true), ("max_tokens", .int 1024)]⟩)]

/-- The mutable store: cell `i` holds the params dict of the `i`-th preset
at module load; later cells are copies handed out by `get_preset_config`. -/
structure PresetState where
  cells : List (List (String × PVal))

/-- State at module load: exactly the six preset params dicts. -/
def initState : PresetState := ⟨PRESET_CONFIGS.map (fun p => p.2.params)⟩

/-- Position of a preset name in the table (`preset_name in PRESET_CONFIGS`
and the subsequent dict access). -/
def presetIndex (nm : String) : Option ℕ :=
  PRESET_CONFIGS.findIdx? (fun p => p.1 = nm)

/-- Model of `VLLMConfigManager.get_preset_config` under the heap model: unknown
names raise `ValueError` leaving the state unchanged; known names allocate
a fresh copy of the preset's params dict and return its address. -/
def get_preset_config (s : PresetState) (nm : String) :
    PresetState × Except PyErr ℕ :=
  match presetIndex nm with
  | none => (s, .error (.valueError ("未知预设: " ++ nm)))
  | some i => (⟨s.cells ++ [s.cells.getD i []]⟩, .ok s.cells.length)

/-- Python `d[k] = v` on a dict: replace in place when the key exists, else
append. -/
def dictSet (d : List (String × PVal)) (k : String) (v : PVal) :
    List (String × PVal) :=
  if d.any (fun p => p.1 = k) then d.map (fun p => if p.1 = k then (p.1, v) else p)
  else d ++ [(k, v)]

/-- Mutate the dict stored at address `a`: `mapping[k] = v` performed by a
caller on the mapping returned by `get_preset_config`. -/
def setParam (s : PresetState) (a : ℕ) (k : String) (v : PVal) : PresetState :=
  ⟨s.cells.set a (dictSet (s.cells.getD a []) k v)⟩

/-! ### Witness fixtures -/

/-- A well-formed 2xx completion body whose first choice has text `s`. -/
def successBody (s : String) : Json :=
  Json.obj [("choices", Json.arr [Json.obj [("text", Json.str s)]])]

def wCfg3 : CustomVLLMWrapper := { model_name := "m", max_retries := 3 }

def wCfg0 : CustomVLLMWrapper := { model_name := "m", max_retries := 0 }

/-- Transport failing on attempts 0 and 1 and succeeding on attempt 2. -/
def wT1 : ℕ → Except String Json := fun a =>
  if a = 0 then .error ("boom0")
  else if a = 1 then .error ("boom1")
  else .ok (successBody ("ok"))

/-- Transport that always fails. -/
def wT2 : ℕ → Except String Json := fun _ => .error ("down")

/-- A valid baseline client: required model name, all other fields at
their declared defaults. -/
def baseW : CustomVLLMWrapper := { model_name := "m" }

/-- Client constructed with a non-empty instance stop list, used to exhibit
the empty-override fallback. -/
def cexCfg : CustomVLLMWrapper := { model_name := "m", stop := some [("x")] }

/-- Transport that always returns a 2xx response with empty JSON body
`\x7b\x7d`. -/
def wTMal : ℕ → Except String Json := fun _ => .ok (Json.obj [])

/-- The exception class of a call result, `none` on success. -/
def resultClass (r : Except PyErr Json) : Option PyClass :=
  match r with
  | .error e => some e.pyClass
  | .ok _ => none

/-! ### Helper lemmas -/

theorem makeRequestLoop_shape (t : ℕ → Except String Json) :
    ∀ (k a : ℕ),
      (makeRequestLoop t k a).sleeps =
        (List.range' a ((makeRequestLoop t k a).attempts - 1)).map (fun i => 2 ^ i) ∧
      (makeRequestLoop t k a).attempts ≤ k ∧
      (k ≠ 0 → (makeRequestLoop t k a).attempts ≠ 0) := by
  intro k
  induction k with
  | zero => intro a; simp [makeRequestLoop]
  | succ k ih =>
    intro a
    rcases h : t a with e | j
    · by_cases hk : k = 0
      · subst hk; simp [makeRequestLoop, h]
      · have ih' := ih (a + 1)
        have hat : (makeRequestLoop t (k + 1) a).attempts =
            (makeRequestLoop t k (a + 1)).attempts + 1 := by
          simp [makeRequestLoop, h, hk]
        have hsl : (makeRequestLoop t (k + 1) a).sleeps =
            2 ^ a :: (makeRequestLoop t k (a + 1)).sleeps := by
          simp [makeRequestLoop, h, hk]
        refine ⟨?_, ?_, ?_⟩
        · rw [hsl, hat, ih'.1]
          have hpos : (makeRequestLoop t k (a + 1)).attempts ≠ 0 := ih'.2.2 hk
          obtain ⟨n, hn⟩ : ∃ n, (makeRequestLoop t k (a + 1)).attempts = n + 1 :=
            ⟨(makeRequestLoop t k (a + 1)).attempts - 1, by omega⟩
          rw [hn]
          simp [List.range'_succ]
        · rw [hat]; exact Nat.succ_le_succ ih'.2.1
        · rw [hat]; omega
    · simp [makeRequestLoop, h]

theorem makeRequestLoop_error_exception (t : ℕ → Except String Json) :
    ∀ (k a : ℕ) (e : PyErr),
      (makeRequestLoop t k a).result = .error e → ∃ m, e = .exception m := by
  intro k
  induction k with
  | zero => intro a e h; simp [makeRequestLoop] at h
  | succ k ih =>
    intro a e h
    rcases ht : t a with m | j
    · by_cases hk : k = 0
      · subst hk
        simp [makeRequestLoop, ht] at h
        exact ⟨_, h.symm⟩
      · simp [makeRequestLoop, ht, hk] at h
        exact ih (a + 1) e h
    · simp [makeRequestLoop, ht] at h

theorem parse_successBody (s : String) :
    parse_response (successBody s) = .ok (Json.str s) := rfl


/-- Where each key of the payload built by `_build_request_params` comes
from: caller override if supplied else instance default for every
`kwargs.get` parameter, the `stop` argument as passed, and the instance
value (never the override) for `stop_token_ids`.  `None`-valued entries
are absent. -/
theorem build_lookup_spec :
    ∀ (cfg : CustomVLLMWrapper) (prompt : String) (fs : Option (List String))
      (stream : Bool) (kw : CallKwargs),
      List.lookup ("model") (_build_request_params cfg prompt fs stream kw) =
        some (.str cfg.model_name) ∧
      List.lookup ("prompt") (_build_request_params cfg prompt fs stream kw) =
        some (.str prompt) ∧
      List.lookup ("stream") (_build_request_params cfg prompt fs stream kw) =
        some (.bool stream) ∧
      List.lookup ("temperature") (_build_request_params cfg prompt fs stream kw) =
        some (.num (kw.temperature.getD cfg.temperature)) ∧
      List.lookup ("top_p") (_build_request_params cfg prompt fs stream kw) =
        some (.num (kw.top_p.getD cfg.top_p)) ∧
      List.lookup ("top_k") (_build_request_params cfg prompt fs stream kw) =
        some (.int (kw.top_k.getD cfg.top_k)) ∧
      List.lookup ("max_tokens") (_build_request_params cfg prompt fs stream kw) =
        some (.int (kw.max_tokens.getD cfg.max_tokens)) ∧
      List.lookup ("repetition_penalty") (_build_request_params cfg prompt fs stream kw) =
        some (.num (kw.repetition_penalty.getD cfg.repetition_penalty)) ∧
      List.lookup ("frequency_penalty") (_build_request_params cfg prompt fs stream kw) =
        some (.num (kw.frequency_penalty.getD cfg.frequency_penalty)) ∧
      List.lookup ("presence_penalty") (_build_request_params cfg prompt fs stream kw) =
        some (.num (kw.presence_penalty.getD cfg.presence_penalty)) ∧
      List.lookup ("min_p") (_build_request_params cfg prompt fs stream kw) =
        some (.num (kw.min_p.getD cfg.min_p)) ∧
      List.lookup ("stop") (_build_request_params cfg prompt fs stream kw) =
        fs.map .strList ∧
      List.lookup ("stop_token_ids") (_build_request_params cfg prompt fs stream kw) =
        cfg.stop_token_ids.map .intList ∧
      List.lookup ("use_beam_search") (_build_request_params cfg prompt fs stream kw) =
        some (.bool (kw.use_beam_search.getD cfg.use_beam_search)) ∧
      List.lookup ("best_of") (_build_request_params cfg prompt fs stream kw) =
        some (.int (kw.best_of.getD cfg.best_of)) ∧
      List.lookup ("n") (_build_request_params cfg prompt fs stream kw) =
        some (.int (kw.n.getD cfg.n)) ∧
      List.lookup ("length_penalty") (_build_request_params cfg prompt fs stream kw) =
        some (.num (kw.length_penalty.getD cfg.length_penalty)) ∧
      List.lookup ("early_stopping") (_build_request_params cfg prompt fs stream kw) =
        some (.bool (kw.early_stopping.getD cfg.early_stopping)) ∧
      List.lookup ("seed") (_build_request_params cfg prompt fs stream kw) =
        (kw.seed.getD cfg.seed).map .int ∧
      List.lookup ("logprobs") (_build_request_params cfg prompt fs stream kw) =
        (kw.logprobs.getD cfg.logprobs).map .int ∧
      List.lookup ("echo") (_build_request_params cfg prompt fs stream kw) =
        some (.bool (kw.echo.getD cfg.echo)) ∧
      List.lookup ("skip_special_tokens") (_build_request_params cfg prompt fs stream kw) =
        some (.bool (kw.skip_special_tokens.getD cfg.skip_special_tokens)) ∧
      List.lookup ("spaces_between_special_tokens")
          (_build_request_params cfg prompt fs stream kw) =
        some (.bool (kw.spaces_between_special_tokens.getD
          cfg.spaces_between_special_tokens)) := by
  intro cfg prompt fs stream kw
  simp only [_build_request_params]
  generalize kw.seed.getD cfg.seed = seff
  generalize kw.logprobs.getD cfg.logprobs = leff
  rcases fs with _ | fsl <;> rcases hstk : cfg.stop_token_ids with _ | stl <;>
    rcases seff with _ | sv <;> rcases leff with _ | lv <;>
    simp [List.lookup]

/-! ### Claim theorems -/

/-- C1: the blocking call attempts delivery up to `max_retries` times with
exponential backoff only between attempts: with a transport failing twice
then succeeding and `max_retries = 3`, `_call` returns the success text
after exactly two sleeps of 1 and 2 base units; with `max_retries = 2` and
an always-failing transport it raises after exactly 2 attempts with one
sleep only (none after the final failure); in general at most
`max_retries` attempts are made and the sleeps are exactly
`2^0, …, 2^(attempts-2)`. -/
theorem retry_backoff_bounded :
    (∀ (cfg : CustomVLLMWrapper) (prompt : String) (kw : CallKwargs)
        (t : ℕ → Except String Json) (m0 m1 s : String),
      cfg.max_retries = 3 → t 0 = .error m0 → t 1 = .error m1 →
      t 2 = .ok (successBody s) →
        (_call cfg prompt none kw t).result = .ok (Json.str s) ∧
        (_call cfg prompt none kw t).trace.attempts = 3 ∧
        (_call cfg prompt none kw t).trace.sleeps = [1, 2]) ∧
    (∀ (cfg : CustomVLLMWrapper) (prompt : String) (kw : CallKwargs)
        (t : ℕ → Except String Json) (m0 m1 : String),
      cfg.max_retries = 2 → t 0 = .error m0 → t 1 = .error m1 →
        (_call cfg prompt none kw t).result =
          .error (.exception ("vLLM API 请求失败: " ++ m1)) ∧
        (_call cfg prompt none kw t).trace.attempts = 2 ∧
        (_call cfg prompt none kw t).trace.sleeps = [1]) ∧
    (∀ (mr : ℤ) (t : ℕ → Except String Json),
      (make_request mr t).attempts ≤ mr.toNat ∧
      (make_request mr t).sleeps =
        (List.range ((make_request mr t).attempts - 1)).map (fun i => 2 ^ i)) := by
  refine ⟨?_, ?_, ?_⟩
  · intro cfg prompt kw t m0 m1 s hmr h0 h1 h2
    have hreq : make_request cfg.max_retries t = ⟨.ok (successBody s), 3, [1, 2]⟩ := by
      rw [hmr]
      show makeRequestLoop t (3 : ℤ).toNat 0 = _
      norm_num [makeRequestLoop, h0, h1, h2]
    simp [_call, hreq, parse_successBody]
  · intro cfg prompt kw t m0 m1 hmr h0 h1
    have hreq : make_request cfg.max_retries t =
        ⟨.error (.exception ("vLLM API 请求失败: " ++ m1)), 2, [1]⟩ := by
      rw [hmr]
      show makeRequestLoop t (2 : ℤ).toNat 0 = _
      norm_num [makeRequestLoop, h0, h1]
    simp [_call, hreq]
  · intro mr t
    have h := makeRequestLoop_shape t mr.toNat 0
    refine ⟨h.2.1, ?_⟩
    have := h.1
    rw [List.range_eq_range']
    exact this

theorem retry_backoff_bounded_witness :
    (_call wCfg3 ("p") none {} wT1).result = .ok (Json.str ("ok")) ∧
    (_call wCfg3 ("p") none {} wT1).trace.attempts = 3 ∧
    (_call wCfg3 ("p") none {} wT1).trace.sleeps = [1, 2] :=
  retry_backoff_bounded.1 wCfg3 ("p") {} wT1 ("boom0") ("boom1") ("ok")
    rfl rfl rfl rfl

/-- C9: with `max_retries` zero (or negative) the retry loop body never
runs: no HTTP attempt is made, `_make_request` falls through returning
Python `None` (embedded `Json.null`) instead of raising, and `_call` hands
that `None` to `_parse_response` (where `'choices' in None` then raises an
uncaught `TypeError`). -/
theorem zero_retries_no_attempt :
    ∀ (cfg : CustomVLLMWrapper) (prompt : String) (kw : CallKwargs)
      (t : ℕ → Except String Json),
      cfg.max_retries ≤ 0 →
        make_request cfg.max_retries t = ⟨.ok Json.null, 0, []⟩ ∧
        (_call cfg prompt none kw t).result = parse_response Json.null ∧
        parse_response Json.null =
          .error (.typeError ("argument of type NoneType is not iterable")) := by
  intro cfg prompt kw t h
  have h2 : cfg.max_retries.toNat = 0 := Int.toNat_of_nonpos h
  have hreq : make_request cfg.max_retries t = ⟨.ok Json.null, 0, []⟩ := by
    show makeRequestLoop t cfg.max_retries.toNat 0 = _
    rw [h2]
    rfl
  exact ⟨hreq, by simp [_call, hreq], rfl⟩

theorem zero_retries_no_attempt_witness :
    make_request wCfg0.max_retries wT2 = ⟨.ok Json.null, 0, []⟩ ∧
    (_call wCfg0 ("p") none {} wT2).result =
      .error (.typeError ("argument of type NoneType is not iterable")) :=
  ⟨(zero_retries_no_attempt wCfg0 ("p") {} wT2 (by decide)).1,
   ((zero_retries_no_attempt wCfg0 ("p") {} wT2 (by decide)).2.1).trans
     ((zero_retries_no_attempt wCfg0 ("p") {} wT2 (by decide)).2.2)⟩

/-- C2: for every declared numeric parameter, construction succeeds at the
boundary values of its declared range and fails one unit outside it, the
failure being a `ValidationError` that lists every invalid field in one
error. -/
theorem range_validation :
    (validateFields { baseW with temperature := 0 } = [] ∧
     validateFields { baseW with temperature := 2 } = [] ∧
     validateFields { baseW with temperature := 3 } = [("temperature" : String)] ∧
     validateFields { baseW with temperature := -1 } = [("temperature" : String)]) ∧
    (validateFields { baseW with top_p := 0 } = [] ∧
     validateFields { baseW with top_p := 1 } = [] ∧
     validateFields { baseW with top_p := 2 } = [("top_p" : String)] ∧
     validateFields { baseW with top_p := -1 } = [("top_p" : String)]) ∧
    (validateFields { baseW with top_k := 1 } = [] ∧
     validateFields { baseW with top_k := 100 } = [] ∧
     validateFields { baseW with top_k := 0 } = [("top_k" : String)] ∧
     validateFields { baseW with top_k := 101 } = [("top_k" : String)]) ∧
    (validateFields { baseW with max_tokens := 1 } = [] ∧
     validateFields { baseW with max_tokens := 4096 } = [] ∧
     validateFields { baseW with max_tokens := 0 } = [("max_tokens" : String)] ∧
     validateFields { baseW with max_tokens := 4097 } = [("max_tokens" : String)]) ∧
    (validateFields { baseW with repetition_penalty := 0.1 } = [] ∧
     validateFields { baseW with repetition_penalty := 2 } = [] ∧
     validateFields { baseW with repetition_penalty := -0.9 } =
       [("repetition_penalty" : String)] ∧
     validateFields { baseW with repetition_penalty := 3 } =
       [("repetition_penalty" : String)]) ∧
    (validateFields { baseW with frequency_penalty := -2 } = [] ∧
     validateFields { baseW with frequency_penalty := 2 } = [] ∧
     validateFields { baseW with frequency_penalty := -3 } =
       [("frequency_penalty" : String)] ∧
     validateFields { baseW with frequency_penalty := 3 } =
       [("frequency_penalty" : String)]) ∧
    (validateFields { baseW with presence_penalty := -2 } = [] ∧
     validateFields { baseW with presence_penalty := 2 } = [] ∧
     validateFields { baseW with presence_penalty := -3 } =
       [("presence_penalty" : String)] ∧
     validateFields { baseW with presence_penalty := 3 } =
       [("presence_penalty" : String)]) ∧
    (validateFields { baseW with best_of := 1 } = [] ∧
     validateFields { baseW with best_of := 20 } = [] ∧
     validateFields { baseW with best_of := 0 } = [("best_of" : String)] ∧
     validateFields { baseW with best_of := 21 } = [("best_of" : String)]) ∧
    (validateFields { baseW with n := 1 } = [] ∧
     validateFields { baseW with n := 10 } = [] ∧
     validateFields { baseW with n := 0 } = [("n" : String)] ∧
     validateFields { baseW with n := 11 } = [("n" : String)]) ∧
    (validateFields { baseW with length_penalty := 0.1 } = [] ∧
     validateFields { baseW with length_penalty := 2 } = [] ∧
     validateFields { baseW with length_penalty := -0.9 } =
       [("length_penalty" : String)] ∧
     validateFields { baseW with length_penalty := 3 } =
       [("length_penalty" : String)]) ∧
    (validateFields { baseW with logprobs := some 0 } = [] ∧
     validateFields { baseW with logprobs := some 20 } = [] ∧
     validateFields { baseW with logprobs := none } = [] ∧
     validateFields { baseW with logprobs := some (-1) } = [("logprobs" : String)] ∧
     validateFields { baseW with logprobs := some 21 } = [("logprobs" : String)]) ∧
    (validateFields { baseW with temperature := 3, top_k := 0 } =
       [("temperature" : String), ("top_k" : String)] ∧
     CustomVLLMWrapper.construct { baseW with temperature := 3, top_k := 0 } =
       .error (.validationError [("temperature" : String), ("top_k" : String)]) ∧
     CustomVLLMWrapper.construct baseW = .ok baseW) := by
  norm_num [validateFields, baseW, CustomVLLMWrapper.construct]
  intro h
  exact absurd h (by simp)

/-- C4 counterexample: the claim says the effective value of every
parameter, including the stop list, is the caller-supplied override when
one is supplied.  On a client constructed with `stop=["x"]`, calling with
the override `stop=[]` (supplied, but falsy) produces a payload whose
`stop` is the instance value `["x"]`, not the supplied `[]`: line 87 merges
with Python `or`, which ignores falsy overrides. -/
theorem override_precedence_cex :
    List.lookup ("stop") ((_call cexCfg ("p") (some []) {} wT2).payload) =
      some (.strList [("x")]) ∧
    some (PVal.strList [("x")]) ≠ some (PVal.strList []) :=
  ⟨rfl, by decide⟩

/-- C4 (amended): every `kwargs.get` parameter obeys override-if-supplied-
else-instance-default merging; the `stop` override is used only when it is
a non-empty list (an empty override falls back to the instance default);
and `stop_token_ids` always comes from the instance, ignoring any
override. -/
theorem override_precedence :
    (∀ (cfg : CustomVLLMWrapper) (prompt : String) (fs : Option (List String))
        (stream : Bool) (kw : CallKwargs),
      List.lookup ("temperature") (_build_request_params cfg prompt fs stream kw) =
        some (.num (kw.temperature.getD cfg.temperature)) ∧
      List.lookup ("top_p") (_build_request_params cfg prompt fs stream kw) =
        some (.num (kw.top_p.getD cfg.top_p)) ∧
      List.lookup ("top_k") (_build_request_params cfg prompt fs stream kw) =
        some (.int (kw.top_k.getD cfg.top_k)) ∧
      List.lookup ("max_tokens") (_build_request_params cfg prompt fs stream kw) =
        some (.int (kw.max_tokens.getD cfg.max_tokens)) ∧
      List.lookup ("repetition_penalty") (_build_request_params cfg prompt fs stream kw) =
        some (.num (kw.repetition_penalty.getD cfg.repetition_penalty)) ∧
      List.lookup ("frequency_penalty") (_build_request_params cfg prompt fs stream kw) =
        some (.num (kw.frequency_penalty.getD cfg.frequency_penalty)) ∧
      List.lookup ("presence_penalty") (_build_request_params cfg prompt fs stream kw) =
        some (.num (kw.presence_penalty.getD cfg.presence_penalty)) ∧
      List.lookup ("min_p") (_build_request_params cfg prompt fs stream kw) =
        some (.num (kw.min_p.getD cfg.min_p)) ∧
      List.lookup ("use_beam_search") (_build_request_params cfg prompt fs stream kw) =
        some (.bool (kw.use_beam_search.getD cfg.use_beam_search)) ∧
      List.lookup ("best_of") (_build_request_params cfg prompt fs stream kw) =
        some (.int (kw.best_of.getD cfg.best_of)) ∧
      List.lookup ("n") (_build_request_params cfg prompt fs stream kw) =
        some (.int (kw.n.getD cfg.n)) ∧
      List.lookup ("length_penalty") (_build_request_params cfg prompt fs stream kw) =
        some (.num (kw.length_penalty.getD cfg.length_penalty)) ∧
      List.lookup ("early_stopping") (_build_request_params cfg prompt fs stream kw) =
        some (.bool (kw.early_stopping.getD cfg.early_stopping)) ∧
      List.lookup ("seed") (_build_request_params cfg prompt fs stream kw) =
        (kw.seed.getD cfg.seed).map .int ∧
      List.lookup ("logprobs") (_build_request_params cfg prompt fs stream kw) =
        (kw.logprobs.getD cfg.logprobs).map .int ∧
      List.lookup ("echo") (_build_request_params cfg prompt fs stream kw) =
        some (.bool (kw.echo.getD cfg.echo)) ∧
      List.lookup ("skip_special_tokens") (_build_request_params cfg prompt fs stream kw) =
        some (.bool (kw.skip_special_tokens.getD cfg.skip_special_tokens)) ∧
      List.lookup ("spaces_between_special_tokens")
          (_build_request_params cfg prompt fs stream kw) =
        some (.bool (kw.spaces_between_special_tokens.getD
          cfg.spaces_between_special_tokens)) ∧
      List.lookup ("stop") (_build_request_params cfg prompt fs stream kw) =
        fs.map .strList ∧
      List.lookup ("stop_token_ids") (_build_request_params cfg prompt fs stream kw) =
        cfg.stop_token_ids.map .intList) ∧
    (∀ (inst : Option (List String)),
      finalStop none inst = inst ∧
      finalStop (some []) inst = inst ∧
      ∀ (x : String) (xs : List String), finalStop (some (x :: xs)) inst = some (x :: xs)) ∧
    (∀ (cfg : CustomVLLMWrapper) (prompt : String) (stopOv : Option (List String))
        (kw : CallKwargs) (t : ℕ → Except String Json),
      (_call cfg prompt stopOv kw t).payload =
        _build_request_params cfg prompt (finalStop stopOv cfg.stop) false kw) := by
  refine ⟨?_, ?_, ?_⟩
  · intro cfg prompt fs stream kw
    obtain ⟨_, _, _, h4, h5, h6, h7, h8, h9, h10, h11, h12, h13, h14, h15, h16,
      h17, h18, h19, h20, h21, h22, h23⟩ := build_lookup_spec cfg prompt fs stream kw
    exact ⟨h4, h5, h6, h7, h8, h9, h10, h11, h14, h15, h16, h17, h18, h19, h20,
      h21, h22, h23, h12, h13⟩
  · exact fun inst => ⟨rfl, rfl, fun x xs => rfl⟩
  · intro cfg prompt stopOv kw t
    cases h : (make_request cfg.max_retries t).result <;> simp [_call, h]

/-- C5: any parameter whose effective value is Python `None` is removed
from the payload by the final dict comprehension, so the payload has no
such key at all — in particular `stop`, `seed`, `logprobs` and
`stop_token_ids`. -/
theorem omit_unset_params :
    ∀ (cfg : CustomVLLMWrapper) (prompt : String) (fs : Option (List String))
      (stream : Bool) (kw : CallKwargs),
      (fs = none →
        List.lookup ("stop") (_build_request_params cfg prompt fs stream kw) = none) ∧
      (kw.seed.getD cfg.seed = none →
        List.lookup ("seed") (_build_request_params cfg prompt fs stream kw) = none) ∧
      (kw.logprobs.getD cfg.logprobs = none →
        List.lookup ("logprobs") (_build_request_params cfg prompt fs stream kw) = none) ∧
      (cfg.stop_token_ids = none →
        List.lookup ("stop_token_ids") (_build_request_params cfg prompt fs stream kw) =
          none) := by
  intro cfg prompt fs stream kw
  obtain ⟨_, _, _, _, _, _, _, _, _, _, _, h12, h13, _, _, _, _, _, h19, h20,
    _, _, _⟩ := build_lookup_spec cfg prompt fs stream kw
  exact ⟨fun h => by simpa [h] using h12, fun h => by simpa [h] using h19,
    fun h => by simpa [h] using h20, fun h => by simpa [h] using h13⟩

theorem omit_unset_params_witness :
    List.lookup ("stop") (_build_request_params baseW ("p") none false {}) = none ∧
    List.lookup ("seed") (_build_request_params baseW ("p") none false {}) = none ∧
    List.lookup ("logprobs") (_build_request_params baseW ("p") none false {}) = none ∧
    List.lookup ("stop_token_ids") (_build_request_params baseW ("p") none false {}) =
      none :=
  ⟨(omit_unset_params baseW ("p") none false {}).1 rfl,
   (omit_unset_params baseW ("p") none false {}).2.1 rfl,
   (omit_unset_params baseW ("p") none false {}).2.2.1 rfl,
   (omit_unset_params baseW ("p") none false {}).2.2.2 rfl⟩

/-- C6 counterexample: the missing-`choices` failure on a 2xx body is
raised as the same generic `Exception` class as the transport failure
after exhausted retries (lines 196 and 242 both `raise Exception(...)`):
there is no `MalformedResponse` error kind distinct from `RequestFailed`,
only a different message. -/
theorem malformed_response_kind_cex :
    parse_response (Json.obj []) =
      .error (.exception ("响应格式错误：缺少 choices 字段")) ∧
    (make_request 2 wT2).result =
      .error (.exception ("vLLM API 请求失败: down")) ∧
    PyErr.pyClass (.exception ("响应格式错误：缺少 choices 字段")) =
      PyErr.pyClass (.exception ("vLLM API 请求失败: down")) :=
  ⟨rfl, rfl, rfl⟩

/-- C6 (amended): a 2xx response whose body lacks a `choices` list makes
`_call` fail with the generic `Exception` carrying the missing-`choices`
message (distinguishable from the transport-failure `Exception` only by
its message, not by class), and the failure happens after the retry loop:
exactly one attempt, no retry, no sleep. -/
theorem malformed_response_no_retry :
    ∀ (cfg : CustomVLLMWrapper) (prompt : String) (kw : CallKwargs)
      (t : ℕ → Except String Json),
      1 ≤ cfg.max_retries → t 0 = .ok (Json.obj []) →
        (_call cfg prompt none kw t).result =
          .error (.exception ("响应格式错误：缺少 choices 字段")) ∧
        (_call cfg prompt none kw t).trace.attempts = 1 ∧
        (_call cfg prompt none kw t).trace.sleeps = [] := by
  intro cfg prompt kw t hmr h0
  obtain ⟨k, hk⟩ : ∃ k, cfg.max_retries.toNat = k + 1 :=
    ⟨cfg.max_retries.toNat - 1, by omega⟩
  have hreq : make_request cfg.max_retries t = ⟨.ok (Json.obj []), 1, []⟩ := by
    show makeRequestLoop t cfg.max_retries.toNat 0 = _
    rw [hk]
    simp [makeRequestLoop, h0]
  refine ⟨?_, ?_, ?_⟩
  · simp only [_call, hreq]
    rfl
  · simp [_call, hreq]
  · simp [_call, hreq]

theorem malformed_response_no_retry_witness :
    (_call wCfg3 ("p") none {} wTMal).result =
      .error (.exception ("响应格式错误：缺少 choices 字段")) ∧
    (_call wCfg3 ("p") none {} wTMal).trace.attempts = 1 :=
  ⟨(malformed_response_no_retry wCfg3 ("p") {} wTMal (by decide) rfl).1,
   (malformed_response_no_retry wCfg3 ("p") {} wTMal (by decide) rfl).2.1⟩

/-- C7 counterexample: the claim says every failure is one of three
distinct error kinds so a caller can branch on the kind.  In the code the
transport-exhaustion failure and the malformed-response failure surface as
the *same* class (generic `Exception`), as exhibited by two complete calls
differing only in their failure roles. -/
theorem error_taxonomy_cex :
    resultClass ((_call wCfg3 ("p") none {} wT2).result) =
      some PyClass.cException ∧
    resultClass ((_call wCfg3 ("p") none {} wTMal).result) =
      some PyClass.cException :=
  ⟨rfl, rfl⟩

/-- C7 (amended): construction failures are a distinct
`pydantic.ValidationError`; but transport failures after exhausted retries
and malformed 2xx responses are both raised as the generic `Exception`
class (with different messages), so callers can branch on class only
between validation errors and the rest. -/
theorem error_taxonomy :
    (∀ (w : CustomVLLMWrapper), validateFields w ≠ [] →
      CustomVLLMWrapper.construct w =
        .error (.validationError (validateFields w)) ∧
      (PyErr.validationError (validateFields w)).pyClass =
        PyClass.cValidationError) ∧
    (∀ (mr : ℤ) (t : ℕ → Except String Json) (e : PyErr),
      (make_request mr t).result = .error e → e.pyClass = PyClass.cException) ∧
    (∀ (kvs : List (String × Json)), kvs.any (fun p => p.1 = "choices") = false →
      parse_response (Json.obj kvs) =
        .error (.exception ("响应格式错误：缺少 choices 字段"))) ∧
    PyClass.cValidationError ≠ PyClass.cException := by
  refine ⟨?_, ?_, ?_, by decide⟩
  · intro w h
    exact ⟨by simp [CustomVLLMWrapper.construct, h], rfl⟩
  · intro mr t e h
    obtain ⟨m, rfl⟩ := makeRequestLoop_error_exception t mr.toNat 0 e h
    rfl
  · intro kvs h
    simp [parse_response, pyIn, h]

theorem error_taxonomy_witness :
    CustomVLLMWrapper.construct { baseW with temperature := 3 } =
      .error (.validationError (validateFields { baseW with temperature := 3 })) ∧
    PyErr.pyClass (.exception ("vLLM API 请求失败: down")) = PyClass.cException :=
  ⟨(error_taxonomy.1 { baseW with temperature := 3 }
      (by norm_num [validateFields, baseW])).1,
   error_taxonomy.2.1 2 wT2 (.exception ("vLLM API 请求失败: down")) rfl⟩

/-- C3 counterexample: the claim quantifies over any sequence of transport
lines and allows no outcome besides yielding text fields, skipping, and
`[DONE]` termination.  But a data line whose payload parses to a bare
number — valid JSON with no choices list, so the claim says it yields
nothing and does not abort — makes the loop body evaluate
`'choices' in 5`, which raises an uncaught `TypeError` that escapes the
generator instead of the claimed `.ok []`. -/
theorem stream_decode_nonobject_cex :
    decodeLines [("data: 5").data] =
      .error (.typeError ("argument of type int is not iterable")) ∧
    decodeLines [("data: 5").data] ≠ .ok [] :=
  ⟨rfl, fun h => Except.noConfusion h⟩

/-- C3 (amended): the streaming decoder ignores blank lines and lines
without the `data: ` marker, terminates the sequence (without error) at a
line whose payload strips to `[DONE]`, skips frames whose payload is not
valid JSON, and — for frames whose parsed payload is well-shaped, i.e.
`frameStep` does not raise — yields exactly the non-empty text fields of
the first choice of frames with a non-empty choices list, in order; in
particular the two concrete line sequences of the claim decode to
`["A", "B"]`.  (Frames parsing to non-object payloads such as `data: 5`
instead abort with an uncaught `TypeError`.) -/
theorem stream_decode_spec :
    (∀ (l : List Char) (ls : List (List Char)),
      dataMarker.isPrefixOf l = false → decodeLines (l :: ls) = decodeLines ls) ∧
    (∀ (ls : List (List Char)),
      decodeLines (("data: [DONE]").data :: ls) = .ok []) ∧
    (∀ (l : List Char) (ls : List (List Char)),
      dataMarker.isPrefixOf l = true → pyStrip (l.drop 6) ≠ doneToken →
      json_loads (l.drop 6) = none → decodeLines (l :: ls) = decodeLines ls) ∧
    (∀ (l : List Char) (ls : List (List Char)) (chunk : Json),
      dataMarker.isPrefixOf l = true → pyStrip (l.drop 6) ≠ doneToken →
      json_loads (l.drop 6) = some chunk →
        (∀ (tj : Json), frameStep chunk = .ok (some tj) →
          decodeLines (l :: ls) = (decodeLines ls).map (fun ys => tj :: ys)) ∧
        (frameStep chunk = .ok none → decodeLines (l :: ls) = decodeLines ls)) ∧
    decodeLines [("data: \x7b\"choices\":[\x7b\"text\":\"A\"\x7d]\x7d").data,
      ("data: \x7b\"choices\":[\x7b\"text\":\"B\"\x7d]\x7d").data,
      ("data: [DONE]").data] = .ok [Json.str ("A"), Json.str ("B")] ∧
    decodeLines [("data: \x7b\"choices\":[\x7b\"text\":\"A\"\x7d]\x7d").data,
      ("data: not-json").data,
      ("data: \x7b\"choices\":[\x7b\"text\":\"B\"\x7d]\x7d").data,
      ("data: [DONE]").data] = .ok [Json.str ("A"), Json.str ("B")] := by
  have hcons : ∀ (l : List Char), dataMarker.isPrefixOf l = true → l ≠ [] := by
    intro l h he
    subst he
    simp [dataMarker] at h
  refine ⟨?_, ?_, ?_, ?_, rfl, rfl⟩
  · intro l ls h
    by_cases hb : l = []
    · simp [decodeLines, hb]
    · simp [decodeLines, hb, h]
  · intro ls
    rfl
  · intro l ls h1 h2 h3
    simp [decodeLines, hcons l h1, h1, h2, h3]
  · intro l ls chunk h1 h2 h3
    constructor
    · intro tj h4
      simp [decodeLines, hcons l h1, h1, h2, h3, h4]
    · intro h4
      simp [decodeLines, hcons l h1, h1, h2, h3, h4]

theorem stream_decode_spec_witness :
    decodeLines [("event: noise").data, ("data: not-json").data] = .ok [] :=
  ((stream_decode_spec.1 (("event: noise").data) [("data: not-json").data]
      rfl).trans
    (stream_decode_spec.2.2.1 (("data: not-json").data) [] rfl (by decide)
      rfl)).trans rfl

/-- C10: `get_preset_config` hands out a fresh copy of the named preset's
params dict, so for every preset name mutating the returned mapping (any
key, any value) leaves all six table cells of `PRESET_CONFIGS` unchanged,
and two successive calls with the same name return equal mappings; an
unknown name raises `ValueError` with the state unchanged. -/
theorem preset_config_copy :
    (∀ (nm : String), presetIndex nm = none →
      get_preset_config initState nm =
        (initState, .error (.valueError ("未知预设: " ++ nm)))) ∧
    ((get_preset_config initState ("conservative")).2 = .ok 6 ∧
     (∀ (k : String) (v : PVal),
       (setParam (get_preset_config initState ("conservative")).1 6 k v).cells.take 6 =
         initState.cells) ∧
     ((get_preset_config (get_preset_config initState ("conservative")).1
         ("conservative")).1).cells.getD 7 [] =
       ((get_preset_config initState ("conservative")).1).cells.getD 6 []) ∧
    ((get_preset_config initState ("balanced")).2 = .ok 6 ∧
     (∀ (k : String) (v : PVal),
       (setParam (get_preset_config initState ("balanced")).1 6 k v).cells.take 6 =
         initState.cells) ∧
     ((get_preset_config (get_preset_config initState ("balanced")).1
         ("balanced")).1).cells.getD 7 [] =
       ((get_preset_config initState ("balanced")).1).cells.getD 6 []) ∧
    ((get_preset_config initState ("creative")).2 = .ok 6 ∧
     (∀ (k : String) (v : PVal),
       (setParam (get_preset_config initState ("creative")).1 6 k v).cells.take 6 =
         initState.cells) ∧
     ((get_preset_config (get_preset_config initState ("creative")).1
         ("creative")).1).cells.getD 7 [] =
       ((get_preset_config initState ("creative")).1).cells.getD 6 []) ∧
    ((get_preset_config initState ("precise")).2 = .ok 6 ∧
     (∀ (k : String) (v : PVal),
       (setParam (get_preset_config initState ("precise")).1 6 k v).cells.take 6 =
         initState.cells) ∧
     ((get_preset_config (get_preset_config initState ("precise")).1
         ("precise")).1).cells.getD 7 [] =
       ((get_preset_config initState ("precise")).1).cells.getD 6 []) ∧
    ((get_preset_config initState ("diverse")).2 = .ok 6 ∧
     (∀ (k : String) (v : PVal),
       (setParam (get_preset_config initState ("diverse")).1 6 k v).cells.take 6 =
         initState.cells) ∧
     ((get_preset_config (get_preset_config initState ("diverse")).1
         ("diverse")).1).cells.getD 7 [] =
       ((get_preset_config initState ("diverse")).1).cells.getD 6 []) ∧
    ((get_preset_config initState ("beam_search")).2 = .ok 6 ∧
     (∀ (k : String) (v : PVal),
       (setParam (get_preset_config initState ("beam_search")).1 6 k v).cells.take 6 =
         initState.cells) ∧
     ((get_preset_config (get_preset_config initState ("beam_search")).1
         ("beam_search")).1).cells.getD 7 [] =
       ((get_preset_config initState ("beam_search")).1).cells.getD 6 []) := by
  refine ⟨?_, ⟨rfl, fun k v => rfl, rfl⟩, ⟨rfl, fun k v => rfl, rfl⟩,
    ⟨rfl, fun k v => rfl, rfl⟩, ⟨rfl, fun k v => rfl, rfl⟩,
    ⟨rfl, fun k v => rfl, rfl⟩, ⟨rfl, fun k v => rfl, rfl⟩⟩
  intro nm h
  simp [get_preset_config, h]

theorem preset_config_copy_witness :
    get_preset_config initState ("unknown") =
      (initState, .error (.valueError ("未知预设: " ++ "unknown"))) :=
  preset_config_copy.1 ("unknown") rfl
